/-
Verification development for the gridwalk-core connector layer.

Shallow embedding of the Rust sources:
  - src/connector/postgis/postgis.rs  (identifier validation/quoting, SQL
    generation, field-value formatting, tile query synthesis, type mapping)
  - src/conversion.rs                 (feature stream and GDAL feature conversion)
  - src/connector/core.rs             (Connector capability union)

Rust strings are modelled as `List Char` (`Str`); Rust's `str::to_uppercase`
is modelled character-wise over the ASCII range (`Char.toUpper`), which is
exactly what the validator relies on for its ASCII keyword checks.
Fallible Rust functions returning `Result` are modelled with `Except`.
-/
import Mathlib

/-- Rust `String` / `&str`, modelled as a list of characters. -/
abbrev Str := List Char

/-- Does `l` start with `n`?  Models Rust slice prefix matching used by
`str::contains`. -/
def listStartsWith : List Char → List Char → Bool
  | _, [] => true
  | [], _ :: _ => false
  | c :: cs, d :: ds => c == d && listStartsWith cs ds

/-- Rust `str::contains(needle)` for a string needle: substring containment. -/
def listContainsSeq : List Char → List Char → Bool
  | [], needle => needle.isEmpty
  | c :: cs, needle => listStartsWith (c :: cs) needle || listContainsSeq cs needle

/-- Rust `str::to_uppercase`, restricted to its ASCII behaviour (the model
scope: all identifiers and keywords checked by the code are ASCII). -/
def toUppercaseAscii (s : Str) : Str := s.map Char.toUpper

/-- The character denylist of `validate_sql_identifier`
(postgis.rs line 19: `[';', '\'', '"', '\\', '\0', '\n', '\r']`). -/
def sqlBadChars : List Char := [';', '\'', '"', '\\', Char.ofNat 0, '\n', '\r']

/-- postgis.rs lines 13-29: `validate_sql_identifier`. -/
def validate_sql_identifier (identifier : Str) : Except String Unit :=
  if identifier.isEmpty then
    Except.error "Identifier cannot be empty"
  else if identifier.any (fun c => sqlBadChars.contains c)
      || listContainsSeq (toUppercaseAscii identifier) ("DROP".toList)
      || listContainsSeq (toUppercaseAscii identifier) ("DELETE".toList)
      || listContainsSeq (toUppercaseAscii identifier) ("INSERT".toList)
      || listContainsSeq (toUppercaseAscii identifier) ("UPDATE".toList) then
    Except.error "Invalid identifier: contains unsafe characters"
  else
    Except.ok ()

/-- Rust `identifier.replace("\"", "\"\"")` (postgis.rs line 34). -/
def escapeDoubleQuotes : Str → Str
  | [] => []
  | c :: cs => if c = '"' then '"' :: '"' :: escapeDoubleQuotes cs else c :: escapeDoubleQuotes cs

/-- postgis.rs lines 32-35: `quote_identifier` (validates, then wraps in
double quotes, doubling embedded double quotes). -/
def quote_identifier (identifier : Str) : Except String Str :=
  match validate_sql_identifier identifier with
  | Except.error e => Except.error e
  | Except.ok () => Except.ok ('"' :: (escapeDoubleQuotes identifier ++ ['"']))

/-- Rust `i.to_string()` for integers, via Lean's decimal rendering. -/
def intToStr (i : Int) : Str := (toString i).toList

/-- file.rs lines 29-35: `FieldDefinition` (after connector type mapping). -/
structure FieldDefinition where
  name : Str
  field_type : Str
  width : Option Int
  precision : Option Int
  is_nullable : Bool

/-- file.rs lines 39-45: `LayerSchema`. -/
structure LayerSchema where
  layer_name : Str
  geometry_type : Str
  srid : Option Int
  fields : List FieldDefinition
  feature_count : Int

/-- postgis.rs lines 48-52: the part of `PostgisConnector` state that SQL
generation reads (the pool handle plays no role in query-text construction). -/
structure PostgisConnector where
  schema : Str

/-- postgis.rs lines 80-109: `generate_postgis_create_table_sql`.  Note that
the schema name, layer name and field names are pushed into the text by
`format!` directly, with no call to `validate_sql_identifier` or
`quote_identifier`. -/
def generate_postgis_create_table_sql (conn : PostgisConnector) (schema : LayerSchema) : Str :=
  let sql := "CREATE TABLE \"".toList ++ conn.schema ++ "\".\"".toList ++
    schema.layer_name ++ "\" (\n".toList
  let sql := sql ++ "    id SERIAL PRIMARY KEY,\n".toList
  let sql := schema.fields.foldl (fun acc field =>
    acc ++ "    \"".toList ++ field.name ++ "\" ".toList ++ field.field_type ++
      (if field.is_nullable then [] else " NOT NULL".toList) ++ ",\n".toList) sql
  let srid := schema.srid.getD 4326
  let sql := sql ++ "    \"geometry\" geometry(".toList ++ schema.geometry_type ++
    ", ".toList ++ intToStr srid ++ ")\n".toList
  sql ++ ");".toList

/-- postgis.rs lines 267-275: the SQL text built by `create_namespace`. -/
def create_namespace_sql (name : Str) : Except String Str :=
  match quote_identifier name with
  | Except.error e => Except.error e
  | Except.ok quoted_name => Except.ok ("CREATE SCHEMA IF NOT EXISTS ".toList ++ quoted_name)

/-- Modelled from the spec: the `LayerSource::Database` variant matched by
`get_tile` (postgis.rs lines 286-293) is declared in a connector module not
present under src/; per the spec it identifies a stored layer by namespace and
name plus a geometry-column name and an integer SRID for tile queries. -/
structure LayerSource where
  namespace_ : Str
  name : Str
  geometry_field : Str
  srid : Int

/-- A value bound as a query parameter by sqlx (`.bind(...)`). -/
inductive BindParam
  | pInt (i : Int)
  | pStr (s : Str)
deriving DecidableEq

/-- The tile-query text of postgis.rs lines 300-324: only the quoted
schema/table/geometry-column identifiers and the SRID are interpolated;
`$1..$4` are parameter placeholders. -/
def tileQueryText (srid : Int) (schemaQ tableQ geomColQ : Str) : Str :=
  "\n                WITH bounds AS (\n                    SELECT ST_Transform(ST_TileEnvelope($1, $2, $3), ".toList
  ++ intToStr srid
  ++ ") AS geom\n                ),\n                mvt_data AS (\n                    SELECT ST_AsMVTGeom(\n                        t.".toList
  ++ geomColQ
  ++ ",\n                        bounds.geom,\n                        4096,\n                        256,\n                        true\n                    ) AS geom\n                    FROM ".toList
  ++ schemaQ ++ ".".toList ++ tableQ
  ++ " t,\n                    bounds\n                    WHERE ST_Intersects(t.".toList
  ++ geomColQ
  ++ ", bounds.geom)\n                )\n                SELECT ST_AsMVT(mvt_data.*, $4) AS mvt\n                FROM mvt_data;\n                ".toList

/-- postgis.rs lines 277-333: `get_tile`, modelled up to the point where the
query text and its bound parameters are handed to the database: it returns the
SQL text together with the ordered parameter bindings
(`z as i32`, `x as i32`, `y as i32`, `layer_name`). -/
def get_tile (source : LayerSource) (layer_name : Str) (z x y : Nat) :
    Except String (Str × List BindParam) :=
  match quote_identifier source.namespace_ with
  | Except.error e => Except.error e
  | Except.ok quoted_schema =>
    match quote_identifier source.name with
    | Except.error e => Except.error e
    | Except.ok quoted_table =>
      match quote_identifier source.geometry_field with
      | Except.error e => Except.error e
      | Except.ok geom_column =>
        Except.ok (tileQueryText source.srid quoted_schema quoted_table geom_column,
          [BindParam.pInt (Int.ofNat z), BindParam.pInt (Int.ofNat x),
            BindParam.pInt (Int.ofNat y), BindParam.pStr layer_name])

/-- postgis.rs lines 353-364: the geometry-type probe query text built by
`get_geometry_type` from the connector schema, the source id rendered as a
string, and the geometry column name found in the information schema. -/
def geometry_type_query (schema source_id geom_column : Str) : Except String Str :=
  match quote_identifier schema with
  | Except.error e => Except.error e
  | Except.ok quoted_schema =>
    match quote_identifier source_id with
    | Except.error e => Except.error e
    | Except.ok quoted_table =>
      match quote_identifier geom_column with
      | Except.error e => Except.error e
      | Except.ok quoted_geom_column =>
        Except.ok ("SELECT DISTINCT ST_GeometryType(".toList ++ quoted_geom_column ++
          ") \n            FROM ".toList ++ quoted_schema ++ ".".toList ++ quoted_table ++
          " \n            LIMIT 1".toList)

/-- postgis.rs lines 384-400: `map_gdal_field_type`. -/
def map_gdal_field_type (field_type_str : Str) : Str :=
  if field_type_str == "String".toList then "TEXT".toList
  else if field_type_str == "Integer".toList then "INTEGER".toList
  else if field_type_str == "Integer64".toList then "BIGINT".toList
  else if field_type_str == "Real".toList then "DOUBLE PRECISION".toList
  else if field_type_str == "Date".toList then "DATE".toList
  else if field_type_str == "Time".toList then "TIME".toList
  else if field_type_str == "DateTime".toList then "TIMESTAMP".toList
  else if field_type_str == "Binary".toList then "BYTEA".toList
  else if field_type_str == "StringList".toList then "TEXT[]".toList
  else if field_type_str == "IntegerList".toList then "INTEGER[]".toList
  else if field_type_str == "Integer64List".toList then "BIGINT[]".toList
  else if field_type_str == "RealList".toList then "DOUBLE PRECISION[]".toList
  else "TEXT".toList

/-- The twelve input strings `map_gdal_field_type` recognizes. -/
def recognizedGdalTypes : List Str :=
  ["String".toList, "Integer".toList, "Integer64".toList, "Real".toList,
   "Date".toList, "Time".toList, "DateTime".toList, "Binary".toList,
   "StringList".toList, "IntegerList".toList, "Integer64List".toList, "RealList".toList]

/-- A GDAL `f64` field value, abstracted: its NaN/infinity classification
together with its Rust `Display` (`to_string`) rendering `dec` and its Rust
`Debug` (`{:?}`) rendering `dbg`. -/
structure GFloat where
  isNan : Bool
  isInfinite : Bool
  dec : Str
  dbg : Str
deriving DecidableEq

/-- A GDAL date value, abstracted by its `%Y-%m-%d` rendering. -/
structure GDate where
  fmtYmd : Str
deriving DecidableEq

/-- A GDAL datetime value, abstracted by its `to_rfc3339()` rendering (used by
the insert path) and its `%Y-%m-%dT%H:%M:%S` rendering (used by conversion). -/
structure GDateTime where
  rfc3339 : Str
  fmtIso : Str
deriving DecidableEq

/-- The `gdal::vector::FieldValue` variants handled by the code. -/
inductive GdalFieldValue
  | IntegerValue (i : Int)
  | Integer64Value (i : Int)
  | RealValue (f : GFloat)
  | StringValue (s : Str)
  | DateValue (d : GDate)
  | DateTimeValue (dt : GDateTime)
  | IntegerListValue (l : List Int)
  | Integer64ListValue (l : List Int)
  | RealListValue (l : List GFloat)
  | StringListValue (l : List Str)
deriving DecidableEq

/-- A GDAL geometry handle, abstracted by its fallible WKB and WKT encodings. -/
structure RawGeometry where
  wkb : Except String (List Nat)
  wkt : Except String Str

/-- A GDAL feature handle: an optional geometry and the fallible per-index
field accessor `feature.field(i)` (returning `Ok(None)` for a NULL field). -/
structure GdalFeature where
  geometry : Option RawGeometry
  fieldAt : Nat → Except String (Option GdalFieldValue)

/-- Rust `s.replace("'", "''")` (postgis.rs lines 177 and 204). -/
def escapeSingleQuotes : Str → Str
  | [] => []
  | c :: cs =>
    if c = '\'' then '\'' :: '\'' :: escapeSingleQuotes cs else c :: escapeSingleQuotes cs

/-- Rust `items.join(", ")`. -/
def joinCommaSpace (items : List Str) : Str := List.intercalate (", ".toList) items

/-- postgis.rs lines 161-209: `format_field_value`. -/
def format_field_value (value : GdalFieldValue) : Except String Str :=
  match value with
  | GdalFieldValue.IntegerValue i => Except.ok (intToStr i)
  | GdalFieldValue.Integer64Value i => Except.ok (intToStr i)
  | GdalFieldValue.RealValue f =>
    if f.isNan then Except.ok ("NULL".toList)
    else if f.isInfinite then Except.ok ("NULL".toList)
    else Except.ok f.dec
  | GdalFieldValue.StringValue s => Except.ok ('\'' :: (escapeSingleQuotes s ++ ['\'']))
  | GdalFieldValue.DateValue d => Except.ok ('\'' :: (d.fmtYmd ++ ['\'']))
  | GdalFieldValue.DateTimeValue dt => Except.ok ('\'' :: (dt.rfc3339 ++ ['\'']))
  | GdalFieldValue.IntegerListValue l =>
    Except.ok ("ARRAY[".toList ++ joinCommaSpace (l.map intToStr) ++ "]::integer[]".toList)
  | GdalFieldValue.Integer64ListValue l =>
    Except.ok ("ARRAY[".toList ++ joinCommaSpace (l.map intToStr) ++ "]::bigint[]".toList)
  | GdalFieldValue.RealListValue l =>
    Except.ok ("ARRAY[".toList ++ joinCommaSpace (l.map (fun f => f.dec)) ++
      "]::double precision[]".toList)
  | GdalFieldValue.StringListValue l =>
    Except.ok ("ARRAY[".toList ++
      joinCommaSpace (l.map (fun s => '\'' :: (escapeSingleQuotes s ++ ['\'']))) ++
      "]::text[]".toList)

/-- postgis.rs lines 118-134: the column/value accumulation loop of
`feature_to_insert_statement` over the `Defn` field names by index; a NULL
field (`Ok(None)`) is skipped entirely. -/
def insertColumnsValues (feature : GdalFeature) : List Str → Nat →
    Except String (List Str × List Str)
  | [], _ => Except.ok ([], [])
  | field_name :: rest, field_idx =>
    match feature.fieldAt field_idx with
    | Except.error e => Except.error e
    | Except.ok none => insertColumnsValues feature rest (field_idx + 1)
    | Except.ok (some field_value) =>
      match format_field_value field_value with
      | Except.error e => Except.error e
      | Except.ok fv =>
        match insertColumnsValues feature rest (field_idx + 1) with
        | Except.error e => Except.error e
        | Except.ok (cols, vals) =>
          Except.ok (('"' :: (field_name ++ ['"'])) :: cols, fv :: vals)

/-- postgis.rs lines 150-156: the final INSERT text assembly. -/
def insertSqlText (schema table_name : Str) (column_names values : List Str) : Str :=
  "INSERT INTO \"".toList ++ schema ++ "\".\"".toList ++ table_name ++ "\" (".toList ++
    joinCommaSpace column_names ++ ") VALUES (".toList ++ joinCommaSpace values ++ ");".toList

/-- postgis.rs lines 111-159: `feature_to_insert_statement`.  Geometry, when
present, is appended after the attribute columns with a hard-coded SRID 4326
(line 145: `let srid = 4326;` — the layer's spatial reference is never read);
when absent it is simply skipped. -/
def feature_to_insert_statement (feature : GdalFeature) (defnFields : List Str)
    (schema table_name : Str) (geometry_column : Option Str) : Except String Str :=
  match insertColumnsValues feature defnFields 0 with
  | Except.error e => Except.error e
  | Except.ok (column_names, values) =>
    match feature.geometry with
    | some geom =>
      match geom.wkt with
      | Except.error e => Except.error e
      | Except.ok wkt =>
        Except.ok (insertSqlText schema table_name
          (column_names ++ [('"' :: ((geometry_column.getD ("geometry".toList)) ++ ['"']))])
          (values ++ [("ST_GeomFromText('".toList ++ wkt ++ "', ".toList ++
            intToStr 4326 ++ ")".toList)]))
    | none => Except.ok (insertSqlText schema table_name column_names values)

/-- The field names (in `Defn` order) whose value is present (non-NULL) on the
feature, starting the index walk at `idx` — the specification-side description
of which columns a sparse insert contains. -/
def presentFieldNames (feature : GdalFeature) : List Str → Nat → List Str
  | [], _ => []
  | field_name :: rest, field_idx =>
    match feature.fieldAt field_idx with
    | Except.ok (some _) => field_name :: presentFieldNames feature rest (field_idx + 1)
    | _ => presentFieldNames feature rest (field_idx + 1)

/-- Characters that can occur in Rust's decimal `Display` rendering of a
finite `f64` (digits, decimal point, minus sign). -/
def isDecimalChars (s : Str) : Bool := s.all (fun c => c.isDigit || c == '.' || c == '-')

/-- conversion.rs lines 44-53: the normalized `FieldValue` variants. -/
inductive CFieldValue
  | Text (s : Str)
  | Integer (i : Int)
  | Real (f : GFloat)
  | Boolean (b : Bool)
  | Date (s : Str)
  | DateTime (s : Str)
  | Binary (l : List Nat)
  | Null
deriving DecidableEq

/-- Rust `format!("\x7b:?\x7d", list)` for a `Vec` of integers. -/
def intListDebugFmt (l : List Int) : Str :=
  "[".toList ++ joinCommaSpace (l.map intToStr) ++ "]".toList

/-- Rust `format!("\x7b:?\x7d", list)` for a `Vec<f64>`, via each float's
`Debug` rendering. -/
def realListDebugFmt (l : List GFloat) : Str :=
  "[".toList ++ joinCommaSpace (l.map (fun f => f.dbg)) ++ "]".toList

/-- conversion.rs lines 166-189: mapping one GDAL field read into a
normalized `FieldValue` (list values flattened to text). -/
def convertGdalValue : Option GdalFieldValue → CFieldValue
  | some (GdalFieldValue.StringValue s) => CFieldValue.Text s
  | some (GdalFieldValue.IntegerValue i) => CFieldValue.Integer i
  | some (GdalFieldValue.Integer64Value i) => CFieldValue.Integer i
  | some (GdalFieldValue.RealValue f) => CFieldValue.Real f
  | some (GdalFieldValue.DateValue d) => CFieldValue.Date d.fmtYmd
  | some (GdalFieldValue.DateTimeValue dt) => CFieldValue.DateTime dt.fmtIso
  | some (GdalFieldValue.IntegerListValue l) => CFieldValue.Text (intListDebugFmt l)
  | some (GdalFieldValue.Integer64ListValue l) => CFieldValue.Text (intListDebugFmt l)
  | some (GdalFieldValue.StringListValue l) => CFieldValue.Text (List.intercalate (",".toList) l)
  | some (GdalFieldValue.RealListValue l) => CFieldValue.Text (realListDebugFmt l)
  | none => CFieldValue.Null

/-- conversion.rs lines 36-40: the normalized `Feature` record. -/
structure CFeature where
  geometry_wkb : List Nat
  srid : Option Int
  fields : List (Str × CFieldValue)
deriving DecidableEq

/-- conversion.rs lines 158-191: the field-extraction loop of
`convert_gdal_feature` (fields read by positional index; the insertion-order
map is modelled as an association list in the same order). -/
def convertFields (feature : GdalFeature) : List Str → Nat →
    Except String (List (Str × CFieldValue))
  | [], _ => Except.ok []
  | field_name :: rest, field_idx =>
    match feature.fieldAt field_idx with
    | Except.error e => Except.error ("Failed to read field: " ++ e)
    | Except.ok v =>
      match convertFields feature rest (field_idx + 1) with
      | Except.error e => Except.error e
      | Except.ok tl => Except.ok ((field_name, convertGdalValue v) :: tl)

/-- conversion.rs lines 133-198: `convert_gdal_feature` — geometry must be
present and WKB-encodable or the conversion errors out. -/
def convert_gdal_feature (gdal_feature : GdalFeature) (defnFields : List Str)
    (srid : Option Int) : Except String CFeature :=
  match gdal_feature.geometry with
  | none => Except.error "Feature has no geometry"
  | some g =>
    match g.wkb with
    | Except.error e => Except.error ("Failed to convert geometry to WKB: " ++ e)
    | Except.ok wkb =>
      match convertFields gdal_feature defnFields 0 with
      | Except.error e => Except.error e
      | Except.ok fields =>
        Except.ok { geometry_wkb := wkb, srid := srid, fields := fields }

/-- conversion.rs lines 56-78: `FeatureIterator` state.  The dataset's layer
is modelled by its slot list (`features.getD i none` is `layer.feature(i)`,
`none` marking a logically-deleted slot), its field names and its resolved
SRID; `feature_count` is the count captured at construction
(`FeatureIterator::new` sets `current_index := 0` and
`feature_count := layer.feature_count()`, i.e. the slot count). -/
structure FeatureIterator where
  features : List (Option GdalFeature)
  defnFields : List Str
  srid : Option Int
  current_index : Nat
  feature_count : Nat

/-- conversion.rs lines 100-129: `Iterator::next` — exhausted when the running
index reaches the captured count; a missing slot advances the index and
retries within the same step; a present feature is converted and the index
advanced.  Layer re-acquisition (lines 103-106) is deterministic in the model
(the dataset holds the layer data). -/
def FeatureIterator.next (it : FeatureIterator) :
    Option (Except String CFeature) × FeatureIterator :=
  if it.feature_count ≤ it.current_index then
    (none, it)
  else
    match it.features.getD it.current_index none with
    | some gdal_feature =>
      (some (convert_gdal_feature gdal_feature it.defnFields it.srid),
        { it with current_index := it.current_index + 1 })
    | none =>
      FeatureIterator.next { it with current_index := it.current_index + 1 }
termination_by it.feature_count - it.current_index
decreasing_by
  omega

/-- Driving the iterator: repeatedly call `next`, collecting yielded items
until `next` returns `none`.  The fuel bounds the number of `next` calls;
`feature_count - current_index` calls always suffice (each yielding call
advances the index), and the exhaustion theorems below are stated for every
sufficient fuel, capturing arbitrarily many further `next` calls. -/
def runFuel : Nat → FeatureIterator → List (Except String CFeature)
  | 0, _ => []
  | n + 1, it =>
    match it.next with
    | (none, _) => []
    | (some x, it2) => x :: runFuel n it2

/-- core.rs lines 61-65: the `Connector` union, abstracted over the three
boxed trait-object payload types. -/
inductive Connector (V R H : Type)
  | Vector (v : V)
  | Raster (r : R)
  | Hybrid (h : H)

/-- The vector-capability view returned by `as_vector`: a `&dyn
VectorConnector` borrowed either from a Vector or from a Hybrid backend. -/
inductive VectorView (V H : Type)
  | fromVector (v : V)
  | fromHybrid (h : H)

/-- The raster-capability view returned by `as_raster`. -/
inductive RasterView (R H : Type)
  | fromRaster (r : R)
  | fromHybrid (h : H)

/-- core.rs lines 84-90: `Connector::as_vector`. -/
def Connector.as_vector {V R H : Type} : Connector V R H → Option (VectorView V H)
  | Connector.Vector v => some (VectorView.fromVector v)
  | Connector.Hybrid h => some (VectorView.fromHybrid h)
  | _ => none

/-- core.rs lines 102-108: `Connector::as_raster`. -/
def Connector.as_raster {V R H : Type} : Connector V R H → Option (RasterView R H)
  | Connector.Raster r => some (RasterView.fromRaster r)
  | Connector.Hybrid h => some (RasterView.fromHybrid h)
  | _ => none

/-- core.rs lines 171-176: `Connector::as_hybrid`. -/
def Connector.as_hybrid {V R H : Type} : Connector V R H → Option H
  | Connector.Hybrid h => some h
  | _ => none

/-- A layer name that fails `validate_sql_identifier` (it contains `;` and the
keyword DROP), used to exhibit the unvalidated CREATE TABLE path. -/
def badLayerName : Str := "users; DROP TABLE accounts".toList

/-- A layer schema carrying `badLayerName`, fed to the CREATE TABLE generator. -/
def badLayerSchema : LayerSchema :=
  { layer_name := badLayerName, geometry_type := "Point".toList, srid := some 4326,
    fields := [], feature_count := 0 }

/-- A convertible feature used in concrete witnesses: geometry present with a
WKB encoding, no fields. -/
def witFeatureGood : GdalFeature :=
  { geometry := some { wkb := Except.ok [1, 2, 3], wkt := Except.ok ("POINT(0 0)".toList) },
    fieldAt := fun _ => Except.ok none }

/-- A feature without geometry, used in concrete witnesses. -/
def witNoGeomFeature : GdalFeature :=
  { geometry := none, fieldAt := fun _ => Except.ok none }

/-- A three-slot dataset iterator (one deleted slot) used in witnesses. -/
def witIter : FeatureIterator :=
  { features := [some witFeatureGood, none, some witFeatureGood],
    defnFields := [], srid := some 4326, current_index := 0, feature_count := 3 }

/-- A geometry-less feature with one present and one NULL attribute field,
used in the insert-statement witness. -/
def witInsFeature : GdalFeature :=
  { geometry := none,
    fieldAt := fun i =>
      if i == 0 then Except.ok (some (GdalFieldValue.StringValue ("Ada".toList)))
      else Except.ok none }

theorem listStartsWith_iff (n : List Char) : ∀ l : List Char,
    listStartsWith l n = true ↔ ∃ post, l = n ++ post := by
  induction n with
  | nil =>
    intro l
    simp [listStartsWith]
  | cons d ds ih =>
    intro l
    cases l with
    | nil =>
      simp [listStartsWith]
    | cons c cs =>
      simp only [listStartsWith, Bool.and_eq_true, beq_iff_eq, ih cs]
      constructor
      · rintro ⟨rfl, post, rfl⟩
        exact ⟨post, rfl⟩
      · rintro ⟨post, h⟩
        rw [List.cons_append] at h
        injection h with h1 h2
        exact ⟨h1, post, h2⟩

theorem listContainsSeq_iff (n : List Char) : ∀ hay : List Char,
    listContainsSeq hay n = true ↔ ∃ pre post, hay = pre ++ n ++ post := by
  intro hay
  induction hay with
  | nil =>
    simp only [listContainsSeq, List.isEmpty_iff]
    constructor
    · rintro rfl
      exact ⟨[], [], rfl⟩
    · rintro ⟨pre, post, h⟩
      rcases List.append_eq_nil.mp h.symm with ⟨h1, h2⟩
      exact (List.append_eq_nil.mp h1).2
  | cons c cs ih =>
    simp only [listContainsSeq, Bool.or_eq_true, listStartsWith_iff, ih]
    constructor
    · rintro (⟨post, h⟩ | ⟨pre, post, h⟩)
      · exact ⟨[], post, by simp [h]⟩
      · exact ⟨c :: pre, post, by simp [h]⟩
    · rintro ⟨pre, post, h⟩
      cases pre with
      | nil =>
        left
        exact ⟨post, by simpa using h⟩
      | cons p ps =>
        right
        rw [List.cons_append, List.cons_append] at h
        injection h with h1 h2
        exact ⟨ps, post, by simpa using h2⟩

/-- C2: `validate_sql_identifier` succeeds exactly on the non-empty strings
that contain none of the denied characters and no case-insensitive
DROP/DELETE/INSERT/UPDATE substring; `"layers"` passes, `"layers;DROP TABLE x"`
fails, and the empty string fails. -/
theorem validate_sql_identifier_spec (s : Str) :
    (validate_sql_identifier s = Except.ok () ↔
      s ≠ [] ∧ (∀ c ∈ s, c ∉ sqlBadChars) ∧
      (∀ kw ∈ [("DROP".toList : Str), "DELETE".toList, "INSERT".toList, "UPDATE".toList],
        ¬ ∃ pre post, toUppercaseAscii s = pre ++ kw ++ post)) ∧
    validate_sql_identifier ("layers".toList) = Except.ok () ∧
    validate_sql_identifier ("layers;DROP TABLE x".toList) =
      Except.error "Invalid identifier: contains unsafe characters" ∧
    validate_sql_identifier [] = Except.error "Identifier cannot be empty" := by
  refine ⟨?_, rfl, rfl, rfl⟩
  unfold validate_sql_identifier
  split_ifs with h1 h2
  · simp only [List.isEmpty_iff] at h1
    subst h1
    simp
  · constructor
    · intro h
      cases h
    · rintro ⟨hne, hchars, hkw⟩
      exfalso
      simp only [Bool.or_eq_true, List.any_eq_true, listContainsSeq_iff] at h2
      rcases h2 with ((((⟨c, hc, hmem⟩ | hd) | hd) | hd) | hd)
      · exact hchars c hc (by simpa using hmem)
      · exact hkw _ (by simp) hd
      · exact hkw _ (by simp) hd
      · exact hkw _ (by simp) hd
      · exact hkw _ (by simp) hd
  · simp only [List.isEmpty_iff] at h1
    simp only [Bool.or_eq_true, List.any_eq_true, listContainsSeq_iff, not_or] at h2
    obtain ⟨⟨⟨⟨hchars, hd1⟩, hd2⟩, hd3⟩, hd4⟩ := h2
    constructor
    · intro _
      refine ⟨h1, ?_, ?_⟩
      · intro c hc hmem
        exact hchars ⟨c, hc, by simpa using hmem⟩
      · intro kw hkw
        simp only [List.mem_cons, List.not_mem_nil, or_false] at hkw
        rcases hkw with rfl | rfl | rfl | rfl
        · exact hd1
        · exact hd2
        · exact hd3
        · exact hd4
    · intro _
      rfl

theorem validate_of_quote_eq_ok (x q : Str) (h : quote_identifier x = Except.ok q) :
    validate_sql_identifier x = Except.ok () := by
  unfold quote_identifier at h
  cases hv : validate_sql_identifier x with
  | error e => rw [hv] at h; exact Except.noConfusion h
  | ok u => cases u; rfl

theorem create_namespace_sql_isOk_validate (nm : Str)
    (h : (create_namespace_sql nm).isOk = true) :
    validate_sql_identifier nm = Except.ok () := by
  unfold create_namespace_sql at h
  rcases hq : quote_identifier nm with e | q
  · rw [hq] at h; simp [Except.isOk, Except.toBool] at h
  · exact validate_of_quote_eq_ok _ _ hq

theorem get_tile_quotes_ok (src : LayerSource) (ln : Str) (z x y : Nat)
    (h : (get_tile src ln z x y).isOk = true) :
    ∃ q1 q2 q3, quote_identifier src.namespace_ = Except.ok q1 ∧
      quote_identifier src.name = Except.ok q2 ∧
      quote_identifier src.geometry_field = Except.ok q3 := by
  unfold get_tile at h
  rcases hq1 : quote_identifier src.namespace_ with e1 | q1
  · rw [hq1] at h; simp [Except.isOk, Except.toBool] at h
  rw [hq1] at h
  rcases hq2 : quote_identifier src.name with e2 | q2
  · rw [hq2] at h; simp [Except.isOk, Except.toBool] at h
  rw [hq2] at h
  rcases hq3 : quote_identifier src.geometry_field with e3 | q3
  · rw [hq3] at h; simp [Except.isOk, Except.toBool] at h
  exact ⟨q1, q2, q3, rfl, rfl, rfl⟩

theorem geometry_type_query_quotes_ok (sch tbl geo : Str)
    (h : (geometry_type_query sch tbl geo).isOk = true) :
    ∃ q1 q2 q3, quote_identifier sch = Except.ok q1 ∧
      quote_identifier tbl = Except.ok q2 ∧
      quote_identifier geo = Except.ok q3 := by
  unfold geometry_type_query at h
  rcases hq1 : quote_identifier sch with e1 | q1
  · rw [hq1] at h; simp [Except.isOk, Except.toBool] at h
  rw [hq1] at h
  rcases hq2 : quote_identifier tbl with e2 | q2
  · rw [hq2] at h; simp [Except.isOk, Except.toBool] at h
  rw [hq2] at h
  rcases hq3 : quote_identifier geo with e3 | q3
  · rw [hq3] at h; simp [Except.isOk, Except.toBool] at h
  exact ⟨q1, q2, q3, rfl, rfl, rfl⟩

/-- C3 counterexample: `quote_identifier` applied to `O'Hara"s` does not yield
`"O'Hara""s"`; it fails, because validation runs before quoting and the
identifier contains both a single and a double quote. -/
theorem quote_identifier_ohara_counterexample :
    quote_identifier ("O'Hara\"s".toList) =
      Except.error "Invalid identifier: contains unsafe characters" ∧
    quote_identifier ("O'Hara\"s".toList) ≠ Except.ok ("\"O'Hara\"\"s\"".toList) := by
  refine ⟨rfl, ?_⟩
  intro h
  exact Except.noConfusion ((rfl :
    (Except.error "Invalid identifier: contains unsafe characters" :
      Except String Str) = quote_identifier ("O'Hara\"s".toList)).trans h)

/-- C3 amended: the escaping step of quoting (wrap in double quotes, double
each embedded double quote) applied to `O'Hara"s` produces `"O'Hara""s"` with
the single quote untouched, but `quote_identifier` itself rejects `O'Hara"s`
since validation (which forbids `'` and `"`) runs first. -/
theorem quote_identifier_ohara_amended :
    ('"' :: (escapeDoubleQuotes ("O'Hara\"s".toList) ++ ['"'])) = "\"O'Hara\"\"s\"".toList ∧
    validate_sql_identifier ("O'Hara\"s".toList) =
      Except.error "Invalid identifier: contains unsafe characters" ∧
    (quote_identifier ("O'Hara\"s".toList)).isOk = false :=
  ⟨rfl, rfl, rfl⟩

/-- C1 counterexample: `generate_postgis_create_table_sql` embeds a layer name
that `validate_sql_identifier` rejects verbatim into the CREATE TABLE text, so
not every identifier in connector-generated SQL has passed validation. -/
theorem create_table_sql_unvalidated :
    (validate_sql_identifier badLayerName).isOk = false ∧
    listContainsSeq
      (generate_postgis_create_table_sql ⟨"public".toList⟩ badLayerSchema) badLayerName = true :=
  ⟨rfl, rfl⟩

/-- C1 amended: every identifier embedded in the CREATE SCHEMA statement of
`create_namespace`, the tile query of `get_tile`, and the geometry-type probe
of `get_geometry_type` has passed `validate_sql_identifier` (via
`quote_identifier`) before being quoted into the text; the CREATE TABLE
statement of `generate_postgis_create_table_sql` is the exception — it embeds
the schema name, layer name and field names without validation, witnessed by a
rejected layer name appearing verbatim in its output. -/
theorem identifier_validation_amended
    (nm : Str) (src : LayerSource) (ln : Str) (z x y : Nat) (sch tbl geo : Str)
    (h1 : (create_namespace_sql nm).isOk = true)
    (h2 : (get_tile src ln z x y).isOk = true)
    (h3 : (geometry_type_query sch tbl geo).isOk = true) :
    validate_sql_identifier nm = Except.ok () ∧
    validate_sql_identifier src.namespace_ = Except.ok () ∧
    validate_sql_identifier src.name = Except.ok () ∧
    validate_sql_identifier src.geometry_field = Except.ok () ∧
    validate_sql_identifier sch = Except.ok () ∧
    validate_sql_identifier tbl = Except.ok () ∧
    validate_sql_identifier geo = Except.ok () ∧
    ((validate_sql_identifier badLayerName).isOk = false ∧
      listContainsSeq
        (generate_postgis_create_table_sql ⟨"public".toList⟩ badLayerSchema) badLayerName
        = true) := by
  obtain ⟨q1, q2, q3, hq1, hq2, hq3⟩ := get_tile_quotes_ok src ln z x y h2
  obtain ⟨p1, p2, p3, hg1, hg2, hg3⟩ := geometry_type_query_quotes_ok sch tbl geo h3
  exact ⟨create_namespace_sql_isOk_validate nm h1,
    validate_of_quote_eq_ok _ _ hq1, validate_of_quote_eq_ok _ _ hq2,
    validate_of_quote_eq_ok _ _ hq3, validate_of_quote_eq_ok _ _ hg1,
    validate_of_quote_eq_ok _ _ hg2, validate_of_quote_eq_ok _ _ hg3, rfl, rfl⟩

/-- Witness for the amended C1 theorem at concrete inputs. -/
theorem identifier_validation_amended_witness :
    ((create_namespace_sql ("layers".toList)).isOk = true ∧
      (get_tile ⟨"public".toList, "roads".toList, "geom".toList, 4326⟩
        ("roads".toList) 3 4 5).isOk = true ∧
      (geometry_type_query ("public".toList) ("abc123".toList) ("geom".toList)).isOk = true) ∧
    validate_sql_identifier ("layers".toList) = Except.ok () ∧
    validate_sql_identifier ("public".toList) = Except.ok () := by
  refine ⟨⟨rfl, rfl, rfl⟩, ?_, ?_⟩
  · exact (identifier_validation_amended ("layers".toList)
      ⟨"public".toList, "roads".toList, "geom".toList, 4326⟩
      ("roads".toList) 3 4 5 ("public".toList) ("abc123".toList) ("geom".toList)
      rfl rfl rfl).1
  · exact (identifier_validation_amended ("layers".toList)
      ⟨"public".toList, "roads".toList, "geom".toList, 4326⟩
      ("roads".toList) 3 4 5 ("public".toList) ("abc123".toList) ("geom".toList)
      rfl rfl rfl).2.1

theorem map_gdal_field_type_default (s : Str) (hmem : s ∉ recognizedGdalTypes) :
    map_gdal_field_type s = "TEXT".toList := by
  have h1 : (s == "String".toList) = false :=
    beq_eq_false_iff_ne.mpr (fun e => hmem (by rw [e]; decide))
  have h2 : (s == "Integer".toList) = false :=
    beq_eq_false_iff_ne.mpr (fun e => hmem (by rw [e]; decide))
  have h3 : (s == "Integer64".toList) = false :=
    beq_eq_false_iff_ne.mpr (fun e => hmem (by rw [e]; decide))
  have h4 : (s == "Real".toList) = false :=
    beq_eq_false_iff_ne.mpr (fun e => hmem (by rw [e]; decide))
  have h5 : (s == "Date".toList) = false :=
    beq_eq_false_iff_ne.mpr (fun e => hmem (by rw [e]; decide))
  have h6 : (s == "Time".toList) = false :=
    beq_eq_false_iff_ne.mpr (fun e => hmem (by rw [e]; decide))
  have h7 : (s == "DateTime".toList) = false :=
    beq_eq_false_iff_ne.mpr (fun e => hmem (by rw [e]; decide))
  have h8 : (s == "Binary".toList) = false :=
    beq_eq_false_iff_ne.mpr (fun e => hmem (by rw [e]; decide))
  have h9 : (s == "StringList".toList) = false :=
    beq_eq_false_iff_ne.mpr (fun e => hmem (by rw [e]; decide))
  have h10 : (s == "IntegerList".toList) = false :=
    beq_eq_false_iff_ne.mpr (fun e => hmem (by rw [e]; decide))
  have h11 : (s == "Integer64List".toList) = false :=
    beq_eq_false_iff_ne.mpr (fun e => hmem (by rw [e]; decide))
  have h12 : (s == "RealList".toList) = false :=
    beq_eq_false_iff_ne.mpr (fun e => hmem (by rw [e]; decide))
  rw [map_gdal_field_type, h1, h2, h3, h4, h5, h6, h7, h8, h9, h10, h11, h12]
  simp only [Bool.false_eq_true, if_false]

/-- C6: `map_gdal_field_type` is total and deterministic (it is a pure
function of its argument): every input yields a non-empty type string, the
twelve recognized inputs map to their documented backend types, and every
unrecognized input (such as `"Bogus"`) maps to `"TEXT"`. -/
theorem map_gdal_field_type_spec (s : Str) :
    map_gdal_field_type s ≠ [] ∧
    (s ∉ recognizedGdalTypes → map_gdal_field_type s = "TEXT".toList) ∧
    map_gdal_field_type ("String".toList) = "TEXT".toList ∧
    map_gdal_field_type ("Integer".toList) = "INTEGER".toList ∧
    map_gdal_field_type ("Integer64".toList) = "BIGINT".toList ∧
    map_gdal_field_type ("Real".toList) = "DOUBLE PRECISION".toList ∧
    map_gdal_field_type ("Date".toList) = "DATE".toList ∧
    map_gdal_field_type ("Time".toList) = "TIME".toList ∧
    map_gdal_field_type ("DateTime".toList) = "TIMESTAMP".toList ∧
    map_gdal_field_type ("Binary".toList) = "BYTEA".toList ∧
    map_gdal_field_type ("StringList".toList) = "TEXT[]".toList ∧
    map_gdal_field_type ("IntegerList".toList) = "INTEGER[]".toList ∧
    map_gdal_field_type ("Integer64List".toList) = "BIGINT[]".toList ∧
    map_gdal_field_type ("RealList".toList) = "DOUBLE PRECISION[]".toList ∧
    map_gdal_field_type ("Bogus".toList) = "TEXT".toList := by
  refine ⟨?_, map_gdal_field_type_default s, rfl, rfl, rfl, rfl, rfl, rfl, rfl, rfl,
    rfl, rfl, rfl, rfl, rfl⟩
  by_cases hs : s ∈ recognizedGdalTypes
  · unfold recognizedGdalTypes at hs
    simp only [List.mem_cons, List.not_mem_nil, or_false] at hs
    rcases hs with rfl|rfl|rfl|rfl|rfl|rfl|rfl|rfl|rfl|rfl|rfl|rfl <;> decide
  · rw [map_gdal_field_type_default s hs]
    decide

/-- Witness for the C6 theorem: `"Bogus"` is unrecognized and maps to TEXT. -/
theorem map_gdal_field_type_spec_witness :
    ("Bogus".toList ∉ recognizedGdalTypes) ∧
    map_gdal_field_type ("Bogus".toList) = "TEXT".toList :=
  ⟨by decide, (map_gdal_field_type_spec ("Bogus".toList)).2.1 (by decide)⟩

/-- C7: the tile query text built by `get_tile` is a function of the layer
source alone — two calls with the same source but different z/x/y and layer
name produce identical SQL text; z, x, y and the layer name appear only in the
ordered bind-parameter list, and the text itself is assembled solely from
constant SQL fragments, the three validated-and-quoted identifiers, and the
source SRID. -/
theorem get_tile_parameterization (src : LayerSource) (ln ln2 : Str) (z x y z2 x2 y2 : Nat)
    (h : (get_tile src ln z x y).isOk = true) :
    ∃ q, get_tile src ln z x y =
        Except.ok (q, [BindParam.pInt (Int.ofNat z), BindParam.pInt (Int.ofNat x),
          BindParam.pInt (Int.ofNat y), BindParam.pStr ln]) ∧
      get_tile src ln2 z2 x2 y2 =
        Except.ok (q, [BindParam.pInt (Int.ofNat z2), BindParam.pInt (Int.ofNat x2),
          BindParam.pInt (Int.ofNat y2), BindParam.pStr ln2]) ∧
      ∃ qs qt qg, quote_identifier src.namespace_ = Except.ok qs ∧
        quote_identifier src.name = Except.ok qt ∧
        quote_identifier src.geometry_field = Except.ok qg ∧
        validate_sql_identifier src.namespace_ = Except.ok () ∧
        validate_sql_identifier src.name = Except.ok () ∧
        validate_sql_identifier src.geometry_field = Except.ok () ∧
        q = tileQueryText src.srid qs qt qg := by
  obtain ⟨q1, q2, q3, hq1, hq2, hq3⟩ := get_tile_quotes_ok src ln z x y h
  refine ⟨tileQueryText src.srid q1 q2 q3, ?_, ?_, q1, q2, q3, hq1, hq2, hq3,
    validate_of_quote_eq_ok _ _ hq1, validate_of_quote_eq_ok _ _ hq2,
    validate_of_quote_eq_ok _ _ hq3, rfl⟩
  · unfold get_tile
    rw [hq1, hq2, hq3]
  · unfold get_tile
    rw [hq1, hq2, hq3]

/-- Witness for the C7 theorem at a concrete source and two tile requests. -/
theorem get_tile_parameterization_witness :
    (get_tile ⟨"public".toList, "roads".toList, "geom".toList, 4326⟩
      ("roads".toList) 3 4 5).isOk = true ∧
    ∃ q, get_tile ⟨"public".toList, "roads".toList, "geom".toList, 4326⟩
        ("roads".toList) 3 4 5 =
        Except.ok (q, [BindParam.pInt 3, BindParam.pInt 4, BindParam.pInt 5,
          BindParam.pStr ("roads".toList)]) ∧
      get_tile ⟨"public".toList, "roads".toList, "geom".toList, 4326⟩
        ("other".toList) 9 10 11 =
        Except.ok (q, [BindParam.pInt 9, BindParam.pInt 10, BindParam.pInt 11,
          BindParam.pStr ("other".toList)]) ∧
      ∃ qs qt qg,
        quote_identifier ("public".toList) = Except.ok qs ∧
        quote_identifier ("roads".toList) = Except.ok qt ∧
        quote_identifier ("geom".toList) = Except.ok qg ∧
        validate_sql_identifier ("public".toList) = Except.ok () ∧
        validate_sql_identifier ("roads".toList) = Except.ok () ∧
        validate_sql_identifier ("geom".toList) = Except.ok () ∧
        q = tileQueryText 4326 qs qt qg := by
  refine ⟨rfl, ?_⟩
  have h := get_tile_parameterization
    ⟨"public".toList, "roads".toList, "geom".toList, 4326⟩
    ("roads".toList) ("other".toList) 3 4 5 9 10 11 rfl
  exact h

theorem getD_features_eq (l : List (Option GdalFeature)) (n : Nat) (h : n < l.length) :
    l.getD n none = l[n] := by
  rw [List.getD_eq_getElem?_getD, List.getElem?_eq_getElem h]
  rfl

theorem next_none_exhausted : ∀ (m : Nat) (it : FeatureIterator),
    it.feature_count - it.current_index ≤ m → ∀ it2,
    it.next = (none, it2) → it2.feature_count ≤ it2.current_index := by
  intro m
  induction m with
  | zero =>
    intro it hle it2 h
    have hc : it.feature_count ≤ it.current_index := by omega
    rw [FeatureIterator.next, if_pos hc] at h
    injection h with h1 h2
    rw [← h2]
    exact hc
  | succ m ih =>
    intro it hle it2 h
    by_cases hc : it.feature_count ≤ it.current_index
    · rw [FeatureIterator.next, if_pos hc] at h
      injection h with h1 h2
      rw [← h2]
      exact hc
    · rw [FeatureIterator.next, if_neg hc] at h
      cases hslot : it.features.getD it.current_index none with
      | some gf =>
        rw [hslot] at h
        exact Prod.noConfusion h (fun h1 _ => Option.noConfusion h1)
      | none =>
        rw [hslot] at h
        exact ih { it with current_index := it.current_index + 1 } (by dsimp only; omega) it2 h

theorem next_fused (jt jt' : FeatureIterator) (h : jt.next = (none, jt')) :
    jt'.next = (none, jt') := by
  have hc := next_none_exhausted (jt.feature_count - jt.current_index) jt le_rfl jt' h
  rw [FeatureIterator.next, if_pos hc]

theorem next_spec : ∀ (m : Nat) (it : FeatureIterator),
    it.feature_count = it.features.length →
    it.feature_count - it.current_index ≤ m →
    (∃ it2, it.next = (none, it2) ∧
      (it.features.drop it.current_index).filterMap
        (fun s => s.map (fun gf => convert_gdal_feature gf it.defnFields it.srid)) = []) ∨
    (∃ x it2, it.next = (some x, it2) ∧
      it2.features = it.features ∧ it2.defnFields = it.defnFields ∧ it2.srid = it.srid ∧
      it2.feature_count = it.feature_count ∧
      it.current_index < it2.current_index ∧
      (it.features.drop it.current_index).filterMap
        (fun s => s.map (fun gf => convert_gdal_feature gf it.defnFields it.srid)) =
        x :: (it.features.drop it2.current_index).filterMap
          (fun s => s.map (fun gf => convert_gdal_feature gf it.defnFields it.srid))) := by
  intro m
  induction m with
  | zero =>
    intro it hwf hle
    left
    have hc : it.feature_count ≤ it.current_index := by omega
    refine ⟨it, by rw [FeatureIterator.next, if_pos hc], ?_⟩
    rw [List.drop_eq_nil_of_le (by omega)]
    rfl
  | succ m ih =>
    intro it hwf hle
    by_cases hc : it.feature_count ≤ it.current_index
    · left
      refine ⟨it, by rw [FeatureIterator.next, if_pos hc], ?_⟩
      rw [List.drop_eq_nil_of_le (by omega)]
      rfl
    · have hlt : it.current_index < it.features.length := by omega
      have hdrop := List.drop_eq_getElem_cons hlt
      cases hslot : it.features.getD it.current_index none with
      | some gf =>
        right
        have hget : it.features[it.current_index] = some gf := by
          rw [← getD_features_eq it.features it.current_index hlt, hslot]
        refine ⟨convert_gdal_feature gf it.defnFields it.srid,
          { it with current_index := it.current_index + 1 },
          by rw [FeatureIterator.next, if_neg hc, hslot], rfl, rfl, rfl, rfl,
          by dsimp only; omega, ?_⟩
        dsimp only
        rw [hdrop, hget, List.filterMap_cons_some (Option.map_some' gf _)]
      | none =>
        have hget : it.features[it.current_index] = none := by
          rw [← getD_features_eq it.features it.current_index hlt, hslot]
        have hnext : it.next =
            FeatureIterator.next { it with current_index := it.current_index + 1 } := by
          rw [FeatureIterator.next, if_neg hc, hslot]
        have hskip : (it.features.drop it.current_index).filterMap
            (fun s => s.map (fun gf => convert_gdal_feature gf it.defnFields it.srid)) =
            (it.features.drop (it.current_index + 1)).filterMap
              (fun s => s.map (fun gf => convert_gdal_feature gf it.defnFields it.srid)) := by
          rw [hdrop, hget, List.filterMap_cons_none (Option.map_none' _)]
        rcases ih { it with current_index := it.current_index + 1 }
            (by dsimp only; exact hwf) (by dsimp only; omega) with
          ⟨it2, hnext2, hfm⟩ | ⟨x, it2, hnext2, hf, hd, hs, hcnt, hlt2, heq⟩
        · left
          dsimp only at hfm
          exact ⟨it2, by rw [hnext]; exact hnext2, hskip.trans hfm⟩
        · right
          dsimp only at hnext2 hf hd hs hcnt hlt2 heq
          exact ⟨x, it2, by rw [hnext]; exact hnext2, hf, hd, hs, hcnt, by omega,
            hskip.trans heq⟩

theorem runFuel_spec : ∀ (n : Nat) (it : FeatureIterator),
    it.feature_count = it.features.length →
    it.feature_count - it.current_index ≤ n →
    runFuel n it = (it.features.drop it.current_index).filterMap
      (fun s => s.map (fun gf => convert_gdal_feature gf it.defnFields it.srid)) := by
  intro n
  induction n with
  | zero =>
    intro it hwf hle
    have h0 : runFuel 0 it = [] := rfl
    rw [h0, List.drop_eq_nil_of_le (by omega)]
    rfl
  | succ n ih =>
    intro it hwf hle
    rcases next_spec (it.feature_count - it.current_index) it hwf le_rfl with
      ⟨it2, hnext, hfm⟩ | ⟨x, it2, hnext, hf, hd, hs, hcnt, hlt2, heq⟩
    · have hstep : runFuel (n + 1) it = [] := by
        simp only [runFuel]
        rw [hnext]
      rw [hstep, hfm]
    · have hstep : runFuel (n + 1) it = x :: runFuel n it2 := by
        simp only [runFuel]
        rw [hnext]
      have hwf2 : it2.feature_count = it2.features.length := by rw [hcnt, hf, hwf]
      have hle2 : it2.feature_count - it2.current_index ≤ n := by omega
      rw [hstep, ih it2 hwf2 hle2, hf, hd, hs, heq]

theorem filterMap_toOption_compose (l : List (Option GdalFeature))
    (g : GdalFeature → Except String CFeature) :
    (l.filterMap (fun s => s.map g)).filterMap Except.toOption =
      l.filterMap (fun s => s.bind (fun a => (g a).toOption)) := by
  induction l with
  | nil => rfl
  | cons a l ih =>
    cases a with
    | none =>
      simpa using ih
    | some v =>
      cases hgv : g v with
      | ok r => simp [List.filterMap_cons, hgv, Except.toOption, ih]
      | error e => simp [List.filterMap_cons, hgv, Except.toOption, ih]

/-- C4: driving a freshly-constructed iterator with any sufficient fuel (at
least the captured feature count, hence arbitrarily many further `next` calls)
yields as its successful items exactly the successfully-converted features of
the dataset slots, in ascending source-index order (the in-order filterMap of
the slot list); moreover any state from which `next` returns `none` is a
fixpoint: every subsequent `next` call returns `none` with the same state. -/
theorem featureIterator_exhaustion (it : FeatureIterator) (fuel : Nat)
    (hwf : it.feature_count = it.features.length) (h0 : it.current_index = 0)
    (hfuel : it.feature_count ≤ fuel) :
    (runFuel fuel it).filterMap Except.toOption =
      it.features.filterMap (fun s => s.bind
        (fun gf => (convert_gdal_feature gf it.defnFields it.srid).toOption)) ∧
    (∀ jt jt' : FeatureIterator, jt.next = (none, jt') → jt'.next = (none, jt')) := by
  constructor
  · rw [runFuel_spec fuel it hwf (by omega), h0, List.drop_zero]
    exact filterMap_toOption_compose it.features _
  · exact next_fused

/-- Witness for the C4 theorem on a concrete three-slot dataset. -/
theorem featureIterator_exhaustion_witness :
    (witIter.feature_count = witIter.features.length ∧ witIter.current_index = 0 ∧
      witIter.feature_count ≤ 10) ∧
    (runFuel 10 witIter).filterMap Except.toOption =
      witIter.features.filterMap (fun s => s.bind
        (fun gf => (convert_gdal_feature gf witIter.defnFields witIter.srid).toOption)) :=
  ⟨⟨rfl, rfl, by decide⟩, (featureIterator_exhaustion witIter 10 rfl rfl (by decide)).1⟩

/-- C5: a source feature whose geometry is absent makes `convert_gdal_feature`
return an error for that item; and every successful record carries exactly the
WKB byte encoding of a geometry that was present on the source feature, so no
record is ever produced with a null or fabricated geometry (GDAL WKB encodings
of present geometries are non-empty byte strings; emptiness could only arise
from an empty source encoding, which the second conjunct pins down). -/
theorem convert_gdal_feature_missing_geometry (f : GdalFeature) (defnFields : List Str)
    (srid : Option Int) :
    (f.geometry = none →
      convert_gdal_feature f defnFields srid = Except.error "Feature has no geometry") ∧
    (∀ rec, convert_gdal_feature f defnFields srid = Except.ok rec →
      ∃ g, f.geometry = some g ∧ g.wkb = Except.ok rec.geometry_wkb) := by
  constructor
  · intro hg
    unfold convert_gdal_feature
    rw [hg]
  · intro rec hok
    unfold convert_gdal_feature at hok
    cases hg : f.geometry with
    | none => rw [hg] at hok; exact Except.noConfusion hok
    | some g =>
      simp only [hg] at hok
      cases hwkb : g.wkb with
      | error e => simp only [hwkb] at hok; exact Except.noConfusion hok
      | ok wkb =>
        simp only [hwkb] at hok
        cases hcf : convertFields f defnFields 0 with
        | error e => simp only [hcf] at hok; exact Except.noConfusion hok
        | ok fields =>
          simp only [hcf] at hok
          injection hok with h1
          refine ⟨g, rfl, ?_⟩
          rw [hwkb, ← h1]

/-- Witness for the C5 theorem at a concrete geometry-less feature. -/
theorem convert_gdal_feature_missing_geometry_witness :
    witNoGeomFeature.geometry = none ∧
    convert_gdal_feature witNoGeomFeature [] none = Except.error "Feature has no geometry" :=
  ⟨rfl, (convert_gdal_feature_missing_geometry witNoGeomFeature [] none).1 rfl⟩

theorem not_contains_of_decimal (s : Str) (hdec : isDecimalChars s = true)
    (n : Str) (c : Char) (hc : c ∈ n)
    (hcbad : (c.isDigit || c == '.' || c == '-') = false) :
    listContainsSeq s n = false := by
  cases h : listContainsSeq s n with
  | false => rfl
  | true =>
    exfalso
    obtain ⟨pre, post, heq⟩ := (listContainsSeq_iff n s).mp h
    have hcs : c ∈ s := by
      rw [heq]
      simp [hc]
    have hgood := (List.all_eq_true.mp hdec) c hcs
    rw [hcbad] at hgood
    exact Bool.noConfusion hgood

/-- C8: formatting a real (floating) field value yields the literal text NULL
whenever the value is NaN or infinite, and the plain decimal rendering
otherwise; provided the decimal rendering of a finite float consists of
digits, the decimal point and the minus sign (as Rust's `f64` `Display`
guarantees), the emitted text never contains a NaN or Infinity token. -/
theorem format_field_value_real_spec (f : GFloat)
    (hdec : f.isNan = false → f.isInfinite = false → isDecimalChars f.dec = true) :
    ∃ r, format_field_value (GdalFieldValue.RealValue f) = Except.ok r ∧
      ((f.isNan = true ∨ f.isInfinite = true) → r = "NULL".toList) ∧
      (f.isNan = false → f.isInfinite = false → r = f.dec) ∧
      listContainsSeq r ("NaN".toList) = false ∧
      listContainsSeq r ("inf".toList) = false ∧
      listContainsSeq r ("Infinity".toList) = false := by
  cases hn : f.isNan with
  | true =>
    refine ⟨"NULL".toList, by simp [format_field_value, hn], fun _ => rfl, ?_, rfl, rfl, rfl⟩
    intro h1 _
    exact Bool.noConfusion h1
  | false =>
    cases hi : f.isInfinite with
    | true =>
      refine ⟨"NULL".toList, by simp [format_field_value, hn, hi], fun _ => rfl, ?_, rfl, rfl, rfl⟩
      intro _ h2
      exact Bool.noConfusion h2
    | false =>
      have hd := hdec hn hi
      refine ⟨f.dec, by simp [format_field_value, hn, hi], ?_, fun _ _ => rfl, ?_, ?_, ?_⟩
      · rintro (h | h) <;> exact Bool.noConfusion h
      · exact not_contains_of_decimal f.dec hd _ 'N' (by decide) (by decide)
      · exact not_contains_of_decimal f.dec hd _ 'i' (by decide) (by decide)
      · exact not_contains_of_decimal f.dec hd _ 'I' (by decide) (by decide)

/-- Witness for the C8 theorem: 3.14 formats as 3.14; a NaN formats as NULL. -/
theorem format_field_value_real_spec_witness :
    format_field_value (GdalFieldValue.RealValue
      { isNan := false, isInfinite := false, dec := "3.14".toList, dbg := "3.14".toList }) =
      Except.ok ("3.14".toList) ∧
    format_field_value (GdalFieldValue.RealValue
      { isNan := true, isInfinite := false, dec := "NaN".toList, dbg := "NaN".toList }) =
      Except.ok ("NULL".toList) := by
  constructor
  · obtain ⟨r, hr, _, hfin, _⟩ := format_field_value_real_spec
      { isNan := false, isInfinite := false, dec := "3.14".toList, dbg := "3.14".toList }
      (fun _ _ => by decide)
    rw [hr, hfin rfl rfl]
  · obtain ⟨r, hr, hnull, _⟩ := format_field_value_real_spec
      { isNan := true, isInfinite := false, dec := "NaN".toList, dbg := "NaN".toList }
      (fun h _ => by exact Bool.noConfusion h)
    rw [hr, hnull (Or.inl rfl)]

/-- C9: `as_vector` is `some` exactly on the Vector and Hybrid variants,
`as_raster` exactly on the Raster and Hybrid variants, and `as_hybrid` exactly
on the Hybrid variant; a Hybrid backend is visible through both the vector and
the raster views. -/
theorem connector_capability_views (V R H : Type) (c : Connector V R H) :
    ((c.as_vector).isSome = true ↔
      (∃ v, c = Connector.Vector v) ∨ (∃ h, c = Connector.Hybrid h)) ∧
    ((c.as_raster).isSome = true ↔
      (∃ r, c = Connector.Raster r) ∨ (∃ h, c = Connector.Hybrid h)) ∧
    ((c.as_hybrid).isSome = true ↔ ∃ h, c = Connector.Hybrid h) ∧
    (∀ h : H, (Connector.as_vector (Connector.Hybrid h : Connector V R H)) =
        some (VectorView.fromHybrid h) ∧
      (Connector.as_raster (Connector.Hybrid h : Connector V R H)) =
        some (RasterView.fromHybrid h) ∧
      (Connector.as_hybrid (Connector.Hybrid h : Connector V R H)) = some h) := by
  refine ⟨?_, ?_, ?_, fun h => ⟨rfl, rfl, rfl⟩⟩ <;> cases c <;>
    simp [Connector.as_vector, Connector.as_raster, Connector.as_hybrid]

theorem format_field_value_total (v : GdalFieldValue) :
    ∃ r, format_field_value v = Except.ok r := by
  cases v
  case RealValue f =>
    cases hn : f.isNan
    · cases hi : f.isInfinite
      · exact ⟨f.dec, by simp [format_field_value, hn, hi]⟩
      · exact ⟨"NULL".toList, by simp [format_field_value, hn, hi]⟩
    · exact ⟨"NULL".toList, by simp [format_field_value, hn]⟩
  all_goals exact ⟨_, rfl⟩

theorem insertColumnsValues_ok (feature : GdalFeature) : ∀ (names : List Str) (idx : Nat),
    (∀ i, i < names.length → (feature.fieldAt (idx + i)).isOk = true) →
    ∃ cols vals, insertColumnsValues feature names idx = Except.ok (cols, vals) ∧
      cols = (presentFieldNames feature names idx).map (fun nm => '"' :: (nm ++ ['"'])) := by
  intro names
  induction names with
  | nil =>
    intro idx h
    exact ⟨[], [], rfl, rfl⟩
  | cons name rest ih =>
    intro idx h
    have h0 : (feature.fieldAt idx).isOk = true := by simpa using h 0 (by simp)
    have hshift : ∀ i, i < rest.length → (feature.fieldAt (idx + 1 + i)).isOk = true := by
      intro i hi
      have := h (i + 1) (by simpa using Nat.succ_lt_succ hi)
      rw [show idx + (i + 1) = idx + 1 + i by omega] at this
      exact this
    cases hf : feature.fieldAt idx with
    | error e =>
      rw [hf] at h0
      exact absurd h0 (by simp [Except.isOk, Except.toBool])
    | ok v =>
      cases v with
      | none =>
        obtain ⟨cols, vals, hrec, hcols⟩ := ih (idx + 1) hshift
        refine ⟨cols, vals, ?_, ?_⟩
        · simp only [insertColumnsValues]
          rw [hf]
          exact hrec
        · simp only [presentFieldNames]
          rw [hf]
          exact hcols
      | some fv =>
        obtain ⟨r, hr⟩ := format_field_value_total fv
        obtain ⟨cols, vals, hrec, hcols⟩ := ih (idx + 1) hshift
        refine ⟨('"' :: (name ++ ['"'])) :: cols, r :: vals, ?_, ?_⟩
        · simp only [insertColumnsValues, hf, hr, hrec]
        · simp only [presentFieldNames, hf, List.map_cons, hcols]

/-- C10: `feature_to_insert_statement` succeeds on a feature with absent
geometry (given every field read succeeds): the column list is exactly one
double-quoted column per present (non-NULL) attribute field and contains no
geometry column; and when geometry is present (with a WKT encoding), the
geometry value appended is always tagged `ST_GeomFromText('...', 4326)` — the
SRID is the hard-coded 4326 irrespective of the layer's spatial reference
(which this function never reads). -/
theorem feature_to_insert_statement_spec (feature : GdalFeature) (defnFields : List Str)
    (schema table_name : Str) (geometry_column : Option Str)
    (hfields : ∀ i, i < defnFields.length → (feature.fieldAt i).isOk = true) :
    (feature.geometry = none →
      ∃ cols vals, insertColumnsValues feature defnFields 0 = Except.ok (cols, vals) ∧
        cols = (presentFieldNames feature defnFields 0).map (fun nm => '"' :: (nm ++ ['"'])) ∧
        feature_to_insert_statement feature defnFields schema table_name geometry_column =
          Except.ok (insertSqlText schema table_name cols vals)) ∧
    (∀ geom wkt, feature.geometry = some geom → geom.wkt = Except.ok wkt →
      ∃ cols vals, insertColumnsValues feature defnFields 0 = Except.ok (cols, vals) ∧
        feature_to_insert_statement feature defnFields schema table_name geometry_column =
          Except.ok (insertSqlText schema table_name
            (cols ++ [('"' :: ((geometry_column.getD ("geometry".toList)) ++ ['"']))])
            (vals ++ [("ST_GeomFromText('".toList ++ wkt ++ "', ".toList ++
              intToStr 4326 ++ ")".toList)]))) := by
  obtain ⟨cols, vals, hrec, hcols⟩ := insertColumnsValues_ok feature defnFields 0
    (fun i hi => by simpa using hfields i hi)
  constructor
  · intro hg
    refine ⟨cols, vals, hrec, hcols, ?_⟩
    unfold feature_to_insert_statement
    simp only [hrec, hg]
  · intro geom wkt hg hwkt
    refine ⟨cols, vals, hrec, ?_⟩
    unfold feature_to_insert_statement
    simp only [hrec, hg, hwkt]

/-- Witness for the C10 theorem: a geometry-less feature with one present and
one NULL field produces an INSERT with exactly the present field's column. -/
theorem feature_to_insert_statement_spec_witness :
    (∀ i, i < 2 → ((witInsFeature.fieldAt i).isOk = true)) ∧
    ∃ cols vals,
      insertColumnsValues witInsFeature [("name".toList : Str), "age".toList] 0 =
        Except.ok (cols, vals) ∧
      cols = (presentFieldNames witInsFeature [("name".toList : Str), "age".toList] 0).map
        (fun nm => '"' :: (nm ++ ['"'])) ∧
      feature_to_insert_statement witInsFeature [("name".toList : Str), "age".toList]
        ("public".toList) ("people".toList) none =
        Except.ok (insertSqlText ("public".toList) ("people".toList) cols vals) :=
  ⟨by decide,
    (feature_to_insert_statement_spec witInsFeature [("name".toList : Str), "age".toList]
      ("public".toList) ("people".toList) none (by decide)).1 rfl⟩
